import Mathlib

/-!
Shallow embedding of the discovery/rating engine of the Flavor Quest backend
(`backend/app.py`): the content filter, the quota ledger, the local-store
lookup and upsert used by `search_google_places`, the rating endpoints, and
the provider-calling endpoints.  Text is modelled as `String`/`List Char`
(ASCII character classes), SQL rows as Lean structures, machine floats as
exact rationals, and fallible steps as `Except`/`Option`.  HTTP outcomes of
the external provider are passed in explicitly.
-/

namespace FlavorQuest

/-- Characters matched by the regex class `\w` (ASCII fragment): letters,
digits and underscore. -/
def isWordChar (c : Char) : Bool := c.isAlphanum || c == '_'

/-- Accumulator pass for `runs`: collects the current run (reversed) in `acc`. -/
def runsAux (p : Char → Bool) (acc : List Char) : List Char → List (List Char)
  | [] => if acc.isEmpty then [] else [acc.reverse]
  | c :: cs =>
    if p c then runsAux p (c :: acc) cs
    else if acc.isEmpty then runsAux p [] cs
    else acc.reverse :: runsAux p [] cs

/-- Maximal runs of characters satisfying `p`, scanning left to right. -/
def runs (p : Char → Bool) (l : List Char) : List (List Char) := runsAux p [] l

/-- Python `str.lower` (ASCII case mapping). -/
def lowerStr (s : String) : String := (s.toList.map Char.toLower).asString

/-- Python `str.strip()`: drop leading and trailing whitespace. -/
def pyStrip (s : String) : String :=
  (((s.toList.dropWhile Char.isWhitespace).reverse.dropWhile Char.isWhitespace).reverse).asString

/-- The token list `re.findall(r'\b\w+\b', s)`: maximal `\w+` runs of `s`. -/
def findWords (s : String) : List String := (runs isWordChar s.toList).map List.asString

/-- Python `str.split()`: split on whitespace runs, dropping empty pieces. -/
def pySplit (s : String) : List String :=
  (runs (fun c => !c.isWhitespace) s.toList).map List.asString

/-- The denylist `INAPPROPRIATE_WORDS` of `app.py`, verbatim. -/
def INAPPROPRIATE_WORDS : List String := [
  "spam", "scam", "fake", "fraud", "hate", "violence",
  "fuck", "fucking", "fucked", "shit", "shitting", "crap", "piss",
  "ass", "asshole", "bitch", "bastard",
  "dick", "cock", "pussy", "whore", "slut", "cunt", "motherfucker",
  "bullshit", "goddamn", "goddamned", "bugger", "wanker",
  "prick", "twat", "tosser", "bellend", "arse", "arsehole",
  "f*ck", "f**k", "s**t", "sh*t", "a**", "a**hole", "b****", "b***h",
  "d***", "c***", "p***y", "w***e", "s***", "c***", "m***********r"]

/-- The whole-word denylist check of `contains_inappropriate_content`:
tokenize the lowercased text and test each denylist entry (lowercased)
for membership among the tokens. -/
def word_check (s : String) : Bool :=
  let ws := findWords (lowerStr s)
  INAPPROPRIATE_WORDS.any (fun w => ws.contains (lowerStr w))

/-- The excessive-capitalization check: for text longer than 10 characters,
trip when the fraction of uppercase characters exceeds 0.7.  The float
division of the source is modelled as exact rational division. -/
def caps_check (s : String) : Bool :=
  if 10 < s.length then
    decide ((7 : ℚ) / 10 < ((s.toList.filter Char.isUpper).length : ℚ) / (s.length : ℚ))
  else false

/-- The excessive-repetition check: for text longer than 20 characters with
more than 3 space-delimited tokens, trip when some lowercased token accounts
for more than half of the tokens. -/
def repetition_check (s : String) : Bool :=
  if 20 < s.length then
    let ws := pySplit s
    if 3 < ws.length then
      ws.any (fun w =>
        decide ((ws.length : ℚ) * (1 / 2) < ((ws.countP (fun v => lowerStr v == lowerStr w)) : ℚ)))
    else false
  else false

/-- A Python value passed to `contains_inappropriate_content`: `None`, a
string, or a non-string value (with its truthiness). -/
inductive PyValue where
  | none
  | str (s : String)
  | nonString (truthy : Bool)
deriving DecidableEq

/-- The moderation filter `contains_inappropriate_content`.  `None`, empty
strings and non-string values short-circuit to `false` via
`if not text or not isinstance(text, str)`; otherwise the three checks run
in order with early return, equivalently a boolean disjunction. -/
def contains_inappropriate_content : PyValue → Bool
  | .none => false
  | .nonString _ => false
  | .str s =>
    if s == "" then false
    else word_check s || caps_check s || repetition_check s

/-- Round to the nearest integer, ties to even: the rounding of Python
`round` (and of `Decimal` quantization under the default context). -/
def roundHalfEven (x : ℚ) : ℤ :=
  let n := ⌊x⌋
  let r := x - (n : ℚ)
  if r < 1 / 2 then n
  else if 1 / 2 < r then n + 1
  else if n % 2 = 0 then n else n + 1

/-- Python `round(x, 2)`. -/
def round2 (x : ℚ) : ℚ := (roundHalfEven (x * 100) : ℚ) / 100

/-- Python `f"{x:.1f}"` for a nonnegative value. -/
def fmt1 (x : ℚ) : String :=
  let t := (roundHalfEven (x * 10)).toNat
  toString (t / 10) ++ "." ++ toString (t % 10)

/-- The rating summary string attached by the `get_restaurants` listing:
`"Rated by N user[s] (Avg: X/5)"`, with the average at one decimal, or
`"Have not been rated by users"` when there are no ratings. -/
def ratingMessage (total : Nat) (avg : ℚ) : String :=
  if total == 0 then "Have not been rated by users"
  else "Rated by " ++ toString total ++ " user" ++ (if total != 1 then "s" else "")
    ++ " (Avg: " ++ fmt1 avg ++ "/5)"

/-- The rating summary string of `get_restaurant_ratings`:
`"Rated by N user[s]"` (the source includes no average here), or
`"Have not been rated by users"` when there are no ratings. -/
def userRatingMessage (total : Nat) : String :=
  if total == 0 then "Have not been rated by users"
  else "Rated by " ++ toString total ++ " user" ++ (if total != 1 then "s" else "")

/-- Numeric value of a digit run. -/
def digitsVal (l : List Char) : Nat :=
  l.foldl (fun a c => a * 10 + (c.toNat - '0'.toNat)) 0

/-- Exponent suffix of a Python float literal: optional sign then digits. -/
def pyFloatExp (sgn : ℤ) (mant : ℚ) (r : List Char) : Option ℚ :=
  let (esgn, r1) : ℤ × List Char :=
    match r with
    | '+' :: r2 => (1, r2)
    | '-' :: r2 => (-1, r2)
    | _ => (1, r)
  let ed := r1.takeWhile Char.isDigit
  if ed.isEmpty || !(r1.dropWhile Char.isDigit).isEmpty then Option.none
  else some ((sgn : ℚ) * mant * (10 : ℚ) ^ (esgn * (digitsVal ed : ℤ)))

/-- Python `float(s)` applied to a string: `some` value on a valid decimal
literal (optional sign, digits with optional fraction, optional exponent,
surrounding whitespace), `none` when `float` raises `ValueError`.  The
`inf`/`nan` spellings and underscore separators are not modelled. -/
def pyFloat (s : List Char) : Option ℚ :=
  let t := ((s.dropWhile Char.isWhitespace).reverse.dropWhile Char.isWhitespace).reverse
  let (sgn, t1) : ℤ × List Char :=
    match t with
    | '+' :: r => (1, r)
    | '-' :: r => (-1, r)
    | _ => (1, t)
  let ip := t1.takeWhile Char.isDigit
  let rest1 := t1.dropWhile Char.isDigit
  let (fp, rest2) : List Char × List Char :=
    match rest1 with
    | '.' :: r => (r.takeWhile Char.isDigit, r.dropWhile Char.isDigit)
    | _ => ([], rest1)
  if ip.isEmpty && fp.isEmpty then Option.none
  else
    let mant : ℚ := (digitsVal ip : ℚ) + (digitsVal fp : ℚ) / (10 : ℚ) ^ fp.length
    match rest2 with
    | [] => some ((sgn : ℚ) * mant)
    | 'e' :: r => pyFloatExp sgn mant r
    | 'E' :: r => pyFloatExp sgn mant r
    | _ => Option.none

/-- A row of the `restaurants` table (columns the engine reads).  Rows are
kept in creation order (oldest first); `google_types` holds the raw stored
text of the column (the source stores `json.dumps(types)` there). -/
structure Restaurant where
  id : Nat
  name : String
  location : String
  cuisine_type : String
  google_rating : Option ℚ
  google_place_id : Option String
  google_types : Option String
  google_price_level : Option Nat
  is_active : Bool
deriving DecidableEq

/-- A row of the `restaurant_ratings` table. -/
structure RatingRow where
  id : Nat
  restaurant_id : Nat
  user_id : Nat
  rating : ℚ
  review_text : String
deriving DecidableEq

/-- The durable store: both tables plus the serial-id counters. -/
structure DB where
  restaurants : List Restaurant
  ratings : List RatingRow
  nextRestaurantId : Nat
  nextRatingId : Nat
deriving DecidableEq

/-- The hard ceiling on external-provider calls (`MAX_REQUESTS`). -/
def MAX_REQUESTS : Nat := 10000

/-- The persisted API-usage counters of `api_usage.json`. -/
structure ApiUsage where
  total_requests : Nat
  daily_requests : Nat
deriving DecidableEq

/-- `check_api_quota`: refuse (with the quota message) once
`total_requests` has reached `MAX_REQUESTS`; read-only. -/
def check_api_quota (u : ApiUsage) : Bool × Option String :=
  if MAX_REQUESTS ≤ u.total_requests then
    (false, some "API quota exceeded. You have reached your 10,000 request limit.")
  else (true, Option.none)

/-- The usage-tracking block run after a successful provider HTTP call:
increment both counters and persist (the timestamp field is not modelled). -/
def record_api_call (u : ApiUsage) : ApiUsage :=
  { total_requests := u.total_requests + 1, daily_requests := u.daily_requests + 1 }

/-- A place as returned by the Google Places API (fields the engine reads). -/
structure ProviderPlace where
  place_id : Option String
  name : String
  formatted_address : String
  rating : Option ℚ
  price_level : Option Nat
  types : List String
deriving DecidableEq

/-- Outcome of one HTTP request: a transport failure (`requests` raises), a
non-2xx response (`raise_for_status` raises), or a 2xx response with body. -/
inductive HttpResult (β : Type) where
  | transportError
  | httpError (code : Nat)
  | ok (body : β)
deriving DecidableEq

/-- Body of a text-search response. -/
structure PlacesBody where
  status : String
  results : List ProviderPlace
deriving DecidableEq

/-- Body of a place-details response. -/
structure DetailsBody where
  status : String
  result : ProviderPlace
deriving DecidableEq

/-- Substring occurrence at some position: `needle` occurs in `hay`. -/
def listSubstr (needle : List Char) : List Char → Bool
  | [] => needle.isEmpty
  | c :: rest => needle.isPrefixOf (c :: rest) || listSubstr needle rest

/-- SQL `LIKE '%needle%'` on lowercased text / Python `in` on strings. -/
def substrOf (needle hay : String) : Bool := listSubstr needle.toList hay.toList

/-- The local-store lookup at the top of `search_google_places`:
`WHERE is_active AND (LOWER(location) LIKE LOWER('%loc%') OR LOWER(name)
LIKE LOWER('%query%')) ORDER BY created_at DESC LIMIT 20`.  Newest-first is
the reverse of creation order. -/
def lookupRestaurants (db : DB) (query location : String) : List Restaurant :=
  ((db.restaurants.filter (fun r =>
      r.is_active && (substrOf (lowerStr location) (lowerStr r.location)
        || substrOf (lowerStr query) (lowerStr r.name)))).reverse).take 20

/-- Ratings recorded for one restaurant id. -/
def ratingsFor (db : DB) (rid : Nat) : List ℚ :=
  (db.ratings.filter (fun rr => rr.restaurant_id == rid)).map (fun rr => rr.rating)

/-- `COALESCE(AVG(rating), 0)` over a rating list. -/
def avgOf (l : List ℚ) : ℚ := if l.isEmpty then 0 else l.sum / (l.length : ℚ)

/-- The authenticated user's own rating row for a restaurant, when any. -/
def userReviewFor (db : DB) (rid : Nat) (user : Option Nat) : Option (ℚ × String) :=
  match user with
  | Option.none => Option.none
  | some uid =>
    match db.ratings.find? (fun rr => rr.restaurant_id == rid && rr.user_id == uid) with
    | some rr => some (rr.rating, rr.review_text)
    | Option.none => Option.none

/-- One entry of the `places` array in a search response (geometry and photo
fields are not modelled). -/
structure FormattedPlace where
  place_id : Option String
  ResturantsId : Option Nat
  name : String
  formatted_address : String
  rating : Option ℚ
  price_level : Option Nat
  types : List String
  user_rating : Option ℚ
  user_review : Option String
  AverageRating : Option ℚ
  TotalRatings : Option Nat
  from_database : Bool
deriving DecidableEq

/-- Formatting of one database row on the database path of
`search_google_places`.  The 13-column SELECT puts `google_types` at tuple
index 8 and `google_price_level` at index 9, and the source computes
`avg_rating = float(restaurant[8])` and `total_ratings = restaurant[9]`:
`float` of a non-empty non-numeric `google_types` string raises
`ValueError`, modelled as `Except.error`.  Rows that pass that conversion
have falsy `google_types`, so the `json.loads` branch for the `types` field
is dead and the `["restaurant"]` default applies (the unreachable corner of
a numeric `google_types` string is modelled by the same default). -/
def formatDbRestaurant (db : DB) (user : Option Nat) (r : Restaurant) :
    Except Unit FormattedPlace :=
  let avgVal : Except Unit ℚ :=
    match r.google_types with
    | Option.none => .ok 0
    | some s =>
      if s == "" then .ok 0
      else
        match pyFloat s.toList with
        | some v => .ok v
        | Option.none => .error ()
  match avgVal with
  | .error e => .error e
  | .ok avg_rating =>
    let ur := userReviewFor db r.id user
    .ok {
      place_id := some (match r.google_place_id with
        | some p => p
        | Option.none => "db_" ++ toString r.id),
      ResturantsId := some r.id,
      name := r.name,
      formatted_address := r.location,
      rating := r.google_rating,
      price_level := some (match r.google_price_level with
        | some p => p
        | Option.none => 0),
      types := ["restaurant"],
      user_rating := Option.map (fun x => x.1) ur,
      user_review := Option.map (fun x => x.2) ur,
      AverageRating := if 0 < avg_rating then some (round2 avg_rating) else Option.none,
      TotalRatings := r.google_price_level,
      from_database := true }

/-- Keyword test of the search-path cuisine rules: some keyword occurs as a
substring. -/
def kwAny (kws : List String) (hay : String) : Bool := kws.any (fun k => substrOf k hay)

/-- The cuisine-detection chain of the search save path (first match wins,
default `"Other"`). -/
def classifyCuisineSearch (name address : String) : String :=
  let nl := lowerStr name
  let al := lowerStr address
  if kwAny ["bhojanalaya", "dhaba", "hotel", "restaurant", "kathiyawadi", "gujarati",
      "punjabi", "south indian", "north indian"] nl || substrOf "india" al then "Indian"
  else if kwAny ["pizza", "pasta", "italian", "trattoria", "ristorante", "gusto"] nl then "Italian"
  else if kwAny ["chinese", "wok", "dragon", "panda", "bamboo"] nl then "Chinese"
  else if kwAny ["mexican", "taco", "burrito", "margarita", "cantina"] nl then "Mexican"
  else if kwAny ["sushi", "japanese", "ramen", "tempura", "sake"] nl then "Japanese"
  else if kwAny ["burger", "grill", "steak", "bbq", "american", "chop steakhouse",
      "carbon bar"] nl then "American"
  else if kwAny ["thai", "pad thai", "curry", "spicy"] nl then "Thai"
  else if kwAny ["french", "bistro", "cafe", "brasserie"] nl then "French"
  else if kwAny ["korean", "kimchi", "bbq", "korean"] nl then "Korean"
  else if kwAny ["mediterranean", "greek", "lebanese", "middle eastern"] nl then "Mediterranean"
  else if kwAny ["bar", "pub", "tavern", "lounge"] nl then "Bar & Grill"
  else if kwAny ["canoe", "fine dining", "upscale"] nl then "Fine Dining"
  else "Other"

/-- The cuisine-detection loop of `add_google_place`/`batch_add_restaurants`:
the first provider type tag among the four generic food tags drives a
substring chain (and then breaks), default `"Other"`. -/
def classifyCuisineTypes (types : List String) : String :=
  match types.find? (fun t =>
      t == "restaurant" || t == "food" || t == "meal_takeaway" || t == "meal_delivery") with
  | Option.none => "Other"
  | some t =>
    if substrOf "italian" t || substrOf "pizza" t then "Italian"
    else if substrOf "chinese" t || substrOf "asian" t then "Chinese"
    else if substrOf "mexican" t then "Mexican"
    else if substrOf "indian" t then "Indian"
    else if substrOf "japanese" t || substrOf "sushi" t then "Japanese"
    else if substrOf "american" t then "American"
    else if substrOf "thai" t then "Thai"
    else if substrOf "french" t then "French"
    else if substrOf "korean" t then "Korean"
    else if substrOf "mediterranean" t then "Mediterranean"
    else "Other"

/-- Python `json.dumps` of a list of plain type-tag strings.  The engine only
feeds the result to truthiness tests and `float`. -/
def jsonDumpsList (l : List String) : String :=
  "[" ++ String.intercalate ", " (l.map (fun s => "\"" ++ s ++ "\"")) ++ "]"

/-- The per-result persistence step of the search save path: look the
candidate up by its (name, address) natural key; insert a new active row
when absent, otherwise reuse the existing row untouched.  Returns the row
id, the store, and whether a row was inserted (the source increments
`saved_count` exactly on that insert). -/
def searchUpsert (p : ProviderPlace) (db : DB) : Nat × DB × Bool :=
  match db.restaurants.find? (fun r =>
      r.name == p.name && r.location == p.formatted_address) with
  | some r => (r.id, db, false)
  | Option.none =>
    let newR : Restaurant := {
      id := db.nextRestaurantId,
      name := p.name,
      location := p.formatted_address,
      cuisine_type := classifyCuisineSearch p.name p.formatted_address,
      google_rating := p.rating,
      google_place_id := p.place_id,
      google_types := some (jsonDumpsList p.types),
      google_price_level := p.price_level,
      is_active := true }
    (db.nextRestaurantId,
     { db with restaurants := db.restaurants ++ [newR],
               nextRestaurantId := db.nextRestaurantId + 1 },
     true)

/-- The formatted entry built for a provider result before persistence. -/
def formatApiPlaceBase (p : ProviderPlace) : FormattedPlace :=
  { place_id := p.place_id,
    ResturantsId := Option.none,
    name := p.name,
    formatted_address := p.formatted_address,
    rating := p.rating,
    price_level := p.price_level,
    types := p.types,
    user_rating := Option.none,
    user_review := Option.none,
    AverageRating := Option.none,
    TotalRatings := some 0,
    from_database := false }

/-- Processing of one provider result on the API path: format it, upsert it
into the store, then enrich the entry with the stored id, the rating
aggregate and the requesting user's own rating. -/
def processPlace (user : Option Nat) (acc : List FormattedPlace × DB × Nat)
    (p : ProviderPlace) : List FormattedPlace × DB × Nat :=
  let fps := acc.1
  let db := acc.2.1
  let saved := acc.2.2
  let step := searchUpsert p db
  let rid := step.1
  let db1 := step.2.1
  let ins := step.2.2
  let rs := ratingsFor db1 rid
  let avg := avgOf rs
  let ur := userReviewFor db1 rid user
  let fp := { formatApiPlaceBase p with
    ResturantsId := some rid,
    AverageRating := if 0 < avg then some (round2 avg) else Option.none,
    TotalRatings := some rs.length,
    from_database := true,
    user_rating := Option.map (fun x => x.1) ur,
    user_review := Option.map (fun x => x.2) ur }
  (fps ++ [fp], db1, saved + (if ins then 1 else 0))

/-- The provider-result merge loop of `search_google_places`. -/
def processPlaces (places : List ProviderPlace) (user : Option Nat) (db : DB) :
    List FormattedPlace × DB × Nat :=
  places.foldl (processPlace user) ([], db, 0)

/-- The distinct error returns of `search_google_places`. -/
inductive SearchErr where
  | queryTooShort
  | queryNoLetters
  | quotaExceeded
  | zeroResults
  | invalidRequest
  | overQueryLimit
  | requestDenied
  | unknownStatus (status : String)
  | noPlaces
  | unreachable
deriving DecidableEq

/-- Result of `search_google_places`: a database hit (source `"database"`),
a provider hit (source `"google_api"`, with the saved count), or an error. -/
inductive SearchResult where
  | dbHit (places : List FormattedPlace)
  | apiHit (places : List FormattedPlace) (saved : Nat) (status : String)
  | err (e : SearchErr)
deriving DecidableEq

/-- The `source` field of a search response, when the response carries one. -/
def SearchResult.sourceTag : SearchResult → Option String
  | .dbHit _ => some "database"
  | .apiHit _ _ _ => some "google_api"
  | .err _ => Option.none

/-- The provider portion of `search_google_places` (from the quota check at
line 1432 on): quota gate, query validation, the text-search HTTP call with
usage recorded only after a successful response, response-status dispatch,
and the merge loop.  The final `Nat` counts provider HTTP calls made. -/
def search_provider_path (query : String) (user : Option Nat) (db : DB)
    (u : ApiUsage) (resp : HttpResult PlacesBody) :
    SearchResult × DB × ApiUsage × Nat :=
  if !(check_api_quota u).1 then (.err .quotaExceeded, db, u, 0)
  else if (pyStrip query).length < 2 then (.err .queryTooShort, db, u, 0)
  else if !(query.toList.any Char.isAlpha) then (.err .queryNoLetters, db, u, 0)
  else
    match resp with
    | .transportError => (.err .unreachable, db, u, 1)
    | .httpError _ => (.err .unreachable, db, u, 1)
    | .ok body =>
      let u1 := record_api_call u
      if body.status == "ZERO_RESULTS" then (.err .zeroResults, db, u1, 1)
      else if body.status == "INVALID_REQUEST" then (.err .invalidRequest, db, u1, 1)
      else if body.status == "OVER_QUERY_LIMIT" then (.err .overQueryLimit, db, u1, 1)
      else if body.status == "REQUEST_DENIED" then (.err .requestDenied, db, u1, 1)
      else if !(body.status == "OK") then (.err (.unknownStatus body.status), db, u1, 1)
      else if body.results.isEmpty then (.err .noPlaces, db, u1, 1)
      else
        let merged := processPlaces body.results user db
        (.apiHit merged.1 merged.2.2 body.status, merged.2.1, u1, 1)

/-- `search_google_places` from the local-store lookup at line 1321 onward
(`query` and `location` stand for the already sanitized inputs, as in the
claims' cited range).  A non-empty lookup enters the database path; an
exception while formatting those rows (the `float(restaurant[8])` slip) is
caught and falls through to the provider path, as does an empty lookup. -/
def search_google_places (query location : String) (user : Option Nat)
    (db : DB) (u : ApiUsage) (resp : HttpResult PlacesBody) :
    SearchResult × DB × ApiUsage × Nat :=
  let rows := lookupRestaurants db query location
  if rows.isEmpty then search_provider_path query user db u resp
  else
    match rows.mapM (formatDbRestaurant db user) with
    | .ok fps => (.dbHit fps, db, u, 0)
    | .error _ => search_provider_path query user db u resp

/-- `validate_rating`: the numeric value must lie in [1, 5]. -/
def validate_rating (r : ℚ) : Bool := decide (1 ≤ r ∧ r ≤ 5)

/-- Outcome of a rating submission. -/
inductive RateOutcome where
  | invalidRating
  | disallowedContent
  | restaurantNotFound
  | ok (action : String) (ratingId : Nat)
deriving DecidableEq

/-- The `rate_restaurant` endpoint for an authenticated user (`review` stands
for the already sanitized review text): validate the rating, run the
moderation filter, check the restaurant is active, then update the user's
existing rating row in place (action `"updated"`) or insert a new row
(action `"created"`). -/
def rate_restaurant (db : DB) (uid : Nat) (rid : Nat) (rating : ℚ)
    (review : String) : RateOutcome × DB :=
  if !validate_rating rating then (.invalidRating, db)
  else if contains_inappropriate_content (.str review) then (.disallowedContent, db)
  else if !(db.restaurants.any (fun r => r.id == rid && r.is_active)) then
    (.restaurantNotFound, db)
  else
    match db.ratings.find? (fun rr => rr.restaurant_id == rid && rr.user_id == uid) with
    | some rr =>
      let ratings2 := db.ratings.map (fun x =>
        if x.restaurant_id == rid && x.user_id == uid then
          { x with rating := rating, review_text := review }
        else x)
      (.ok "updated" rr.id, { db with ratings := ratings2 })
    | Option.none =>
      let newRow : RatingRow := {
        id := db.nextRatingId, restaurant_id := rid, user_id := uid,
        rating := rating, review_text := review }
      (.ok "created" db.nextRatingId,
       { db with ratings := db.ratings ++ [newRow], nextRatingId := db.nextRatingId + 1 })

/-- Body of a `get_restaurant_ratings` response (the join with the users
table for usernames is not modelled). -/
structure RatingsResponse where
  restaurant_id : Nat
  restaurant_name : String
  average_rating : Option ℚ
  total_ratings : Nat
  user_rating_message : String
  ratings : List RatingRow
deriving DecidableEq

/-- The `get_restaurant_ratings` endpoint: 404 (`none`) when the restaurant
is absent or inactive; otherwise the restaurant's rating rows newest first,
their count, the 2-decimal rounded mean (`None` when there are no ratings —
the source also maps a zero mean to `None` through Python truthiness), and
the summary string. -/
def get_restaurant_ratings (db : DB) (rid : Nat) : Option RatingsResponse :=
  match db.restaurants.find? (fun r => r.id == rid && r.is_active) with
  | Option.none => Option.none
  | some r =>
    let rows := (db.ratings.filter (fun rr => rr.restaurant_id == rid)).reverse
    let total := rows.length
    let avgOpt : Option ℚ :=
      if rows.isEmpty then Option.none
      else some (((rows.map (fun rr => rr.rating)).sum) / (total : ℚ))
    some {
      restaurant_id := rid,
      restaurant_name := r.name,
      average_rating :=
        match avgOpt with
        | some a => if a == 0 then Option.none else some (round2 a)
        | Option.none => Option.none,
      total_ratings := total,
      user_rating_message := userRatingMessage total,
      ratings := rows }

/-- One entry of the `/restaurants` listing (fields the rating claims read). -/
structure RestaurantSummary where
  ResturantsId : Nat
  Name : String
  AverageRating : Option ℚ
  TotalRatings : Nat
  RatingMessage : String
deriving DecidableEq

/-- The `get_restaurants` listing: active restaurants newest first, each with
its rating count, 2-decimal rounded mean (`None` at zero), and the summary
string built from the unrounded mean at one decimal. -/
def get_restaurants (db : DB) : List RestaurantSummary :=
  ((db.restaurants.filter (fun r => r.is_active)).reverse).map (fun r =>
    let rs := ratingsFor db r.id
    let avg := avgOf rs
    { ResturantsId := r.id,
      Name := r.name,
      AverageRating := if 0 < avg then some (round2 avg) else Option.none,
      TotalRatings := rs.length,
      RatingMessage := ratingMessage rs.length avg })

/-- Outcomes of the `add_google_place` endpoint. -/
inductive AddOutcome where
  | quotaExceeded
  | missingPlaceId
  | unreachable
  | apiError (status : String)
  | alreadyExists
  | added (rid : Nat)
deriving DecidableEq

/-- The `add_google_place` endpoint: quota gate, place-id presence check
(`if not place_id` also rejects an empty string), the details HTTP call with
usage recorded only on a 2xx response, then natural-key duplicate check and
insert (this INSERT stores no `google_types`/`google_price_level`). -/
def add_google_place (place_id : Option String) (db : DB) (u : ApiUsage)
    (resp : HttpResult DetailsBody) : AddOutcome × DB × ApiUsage :=
  if !(check_api_quota u).1 then (.quotaExceeded, db, u)
  else
    match place_id with
    | Option.none => (.missingPlaceId, db, u)
    | some pid =>
      if pid == "" then (.missingPlaceId, db, u)
      else
        match resp with
        | .transportError => (.unreachable, db, u)
        | .httpError _ => (.unreachable, db, u)
        | .ok body =>
          let u1 := record_api_call u
          if !(body.status == "OK") then (.apiError body.status, db, u1)
          else
            match db.restaurants.find? (fun r =>
                r.name == body.result.name && r.location == body.result.formatted_address) with
            | some _ => (.alreadyExists, db, u1)
            | Option.none =>
              let newR : Restaurant := {
                id := db.nextRestaurantId,
                name := body.result.name,
                location := body.result.formatted_address,
                cuisine_type := classifyCuisineTypes body.result.types,
                google_rating := body.result.rating,
                google_place_id := some pid,
                google_types := Option.none,
                google_price_level := Option.none,
                is_active := true }
              (.added db.nextRestaurantId,
               { db with restaurants := db.restaurants ++ [newR],
                         nextRestaurantId := db.nextRestaurantId + 1 }, u1)

/-- One iteration of the `batch_add_restaurants` loop for one place id with
its HTTP outcome: an HTTP failure is caught by the per-item handler (no
usage recorded); a 2xx response records usage, then a non-OK status or a
duplicate natural key is skipped, otherwise a row is inserted (this INSERT
stores NULL for `google_rating` and `google_place_id`). -/
def batch_item (db : DB) (u : ApiUsage) (item : String × HttpResult DetailsBody) :
    DB × ApiUsage :=
  match item.2 with
  | .transportError => (db, u)
  | .httpError _ => (db, u)
  | .ok body =>
    let u1 := record_api_call u
    if !(body.status == "OK") then (db, u1)
    else
      match db.restaurants.find? (fun r =>
          r.name == body.result.name && r.location == body.result.formatted_address) with
      | some _ => (db, u1)
      | Option.none =>
        let newR : Restaurant := {
          id := db.nextRestaurantId,
          name := body.result.name,
          location := body.result.formatted_address,
          cuisine_type := classifyCuisineTypes body.result.types,
          google_rating := Option.none,
          google_place_id := Option.none,
          google_types := Option.none,
          google_price_level := Option.none,
          is_active := true }
        ({ db with restaurants := db.restaurants ++ [newR],
                   nextRestaurantId := db.nextRestaurantId + 1 }, u1)

/-- Outcomes of the `batch_add_restaurants` endpoint. -/
inductive BatchOutcome where
  | missingIds
  | tooManyIds
  | quotaExceeded
  | notEnoughQuota
  | done
deriving DecidableEq

/-- The `batch_add_restaurants` endpoint: reject an empty batch, more than
20 ids, an exhausted quota, or a batch larger than the remaining quota;
otherwise run the per-item loop. -/
def batch_add_restaurants (items : List (String × HttpResult DetailsBody))
    (db : DB) (u : ApiUsage) : BatchOutcome × DB × ApiUsage :=
  if items.isEmpty then (.missingIds, db, u)
  else if 20 < items.length then (.tooManyIds, db, u)
  else if !(check_api_quota u).1 then (.quotaExceeded, db, u)
  else if MAX_REQUESTS < u.total_requests + items.length then (.notEnoughQuota, db, u)
  else
    let fin := items.foldl (fun s it => batch_item s.1 s.2 it) (db, u)
    (.done, fin.1, fin.2)

/-- The store at first boot: empty tables. -/
def initDB : DB := { restaurants := [], ratings := [], nextRestaurantId := 1, nextRatingId := 1 }

/-- The usage ledger at first boot (`load_api_usage` on a missing file). -/
def initUsage : ApiUsage := { total_requests := 0, daily_requests := 0 }

/-- One request served by the system, as a transition on the durable state
(store, usage ledger).  Each constructor runs one embedded endpoint with
arbitrary request parameters and provider outcomes. -/
inductive SysStep : DB × ApiUsage → DB × ApiUsage → Prop where
  | search (query location : String) (user : Option Nat) (resp : HttpResult PlacesBody)
      (db : DB) (u : ApiUsage) :
      SysStep (db, u) ((search_google_places query location user db u resp).2.1,
        (search_google_places query location user db u resp).2.2.1)
  | addPlace (place_id : Option String) (resp : HttpResult DetailsBody)
      (db : DB) (u : ApiUsage) :
      SysStep (db, u) ((add_google_place place_id db u resp).2.1,
        (add_google_place place_id db u resp).2.2)
  | batchAdd (items : List (String × HttpResult DetailsBody)) (db : DB) (u : ApiUsage) :
      SysStep (db, u) ((batch_add_restaurants items db u).2.1,
        (batch_add_restaurants items db u).2.2)
  | rate (uid rid : Nat) (rating : ℚ) (review : String) (db : DB) (u : ApiUsage) :
      SysStep (db, u) ((rate_restaurant db uid rid rating review).2, u)

/-- States reachable from first boot by serving requests. -/
def Reachable (s : DB × ApiUsage) : Prop :=
  Relation.ReflTransGen SysStep (initDB, initUsage) s

/-- At most one rating row per (restaurant, user) pair: the uniqueness
invariant of the `restaurant_ratings` table. -/
abbrev atMostOnePerUser (l : List RatingRow) : Prop :=
  l.Pairwise (fun a b => ¬(a.restaurant_id = b.restaurant_id ∧ a.user_id = b.user_id))

/-- Test fixture: a stored restaurant whose `google_types` column holds the
JSON text the save path always writes. -/
def rSushi : Restaurant := {
  id := 1, name := "Sushi Place", location := "Toronto", cuisine_type := "Japanese",
  google_rating := some 4, google_place_id := some "gp1",
  google_types := some "[\"restaurant\"]", google_price_level := some 2, is_active := true }

/-- Test fixture: a store holding just `rSushi`. -/
def dbBug : DB := { restaurants := [rSushi], ratings := [], nextRestaurantId := 2, nextRatingId := 1 }

/-- Test fixture: one provider search result. -/
def pSushiGo : ProviderPlace := {
  place_id := some "gp2", name := "Sushi Go", formatted_address := "1 Main St",
  rating := Option.none, price_level := Option.none, types := ["restaurant"] }

/-- Test fixture: a provider text-search body with one result. -/
def bodySushi : PlacesBody := { status := "OK", results := [pSushiGo] }

/-- Test fixture: a stored restaurant with no `google_types` (the shape the
`add_google_place` INSERT produces). -/
def rCafe : Restaurant := {
  id := 1, name := "Cafe", location := "Hamilton", cuisine_type := "Other",
  google_rating := Option.none, google_place_id := Option.none,
  google_types := Option.none, google_price_level := Option.none, is_active := true }

/-- Test fixture: a store holding just `rCafe`. -/
def dbCafe : DB := { restaurants := [rCafe], ratings := [], nextRestaurantId := 2, nextRatingId := 1 }

/-- Test fixture: rating rows [5, 3, 4] by three users for restaurant 1. -/
def row1 : RatingRow := { id := 1, restaurant_id := 1, user_id := 10, rating := 5, review_text := "a" }

/-- Test fixture: second rating row. -/
def row2 : RatingRow := { id := 2, restaurant_id := 1, user_id := 11, rating := 3, review_text := "b" }

/-- Test fixture: third rating row. -/
def row3 : RatingRow := { id := 3, restaurant_id := 1, user_id := 12, rating := 4, review_text := "c" }

/-- Test fixture: `rCafe` rated [5, 3, 4]. -/
def dbRated : DB := {
  restaurants := [rCafe], ratings := [row1, row2, row3],
  nextRestaurantId := 2, nextRatingId := 4 }

/-! ## Helper lemmas -/

/-- Every character of every token produced by `runsAux` satisfies the run
predicate, provided the pending accumulator does. -/
lemma runsAux_chars (p : Char → Bool) :
    ∀ (l acc : List Char), (∀ c ∈ acc, p c = true) →
      ∀ w ∈ runsAux p acc l, ∀ c ∈ w, p c = true := by
  intro l
  induction l with
  | nil =>
    intro acc hacc w hw c hc
    unfold runsAux at hw
    split at hw
    · cases hw
    · rcases List.mem_singleton.mp hw with rfl
      exact hacc c (List.mem_reverse.mp hc)
  | cons d ds ih =>
    intro acc hacc w hw c hc
    unfold runsAux at hw
    by_cases hd : p d = true
    · rw [if_pos hd] at hw
      refine ih (d :: acc) ?_ w hw c hc
      intro x hx
      rcases List.mem_cons.mp hx with rfl | hx
      · exact hd
      · exact hacc x hx
    · rw [if_neg hd] at hw
      split at hw
      · exact ih [] (by intro x hx; cases hx) w hw c hc
      · rcases List.mem_cons.mp hw with rfl | hw
        · exact hacc c (List.mem_reverse.mp hc)
        · exact ih [] (by intro x hx; cases hx) w hw c hc

/-- Every character of every token of `findWords` is a word character. -/
lemma findWords_chars (s w : String) (hw : w ∈ findWords s) :
    ∀ c ∈ w.toList, isWordChar c = true := by
  rcases List.mem_map.mp hw with ⟨l, hl, rfl⟩
  intro c hc
  exact runsAux_chars isWordChar s.toList [] (by intro x hx; cases hx) l hl c hc

/-- Bool-level membership: `List.contains` agrees with `∈` on strings. -/
lemma contains_eq_true_iff (l : List String) (a : String) :
    l.contains a = true ↔ a ∈ l := List.elem_iff

/-! ## C8: the caps-ratio heuristic -/

/-- C8: for every text longer than 10 characters in which the fraction of
uppercase characters exceeds 0.7, `contains_inappropriate_content`
classifies the text as disallowed. -/
theorem c8_caps_fraction_disallowed (s : String) (h1 : 10 < s.length)
    (h2 : (7 : ℚ) / 10 < ((s.toList.filter Char.isUpper).length : ℚ) / (s.length : ℚ)) :
    contains_inappropriate_content (.str s) = true := by
  have hs : (s == "") = false := by
    refine beq_eq_false_iff_ne.mpr ?_
    intro e
    subst e
    simp at h1
  have hc : caps_check s = true := by
    unfold caps_check
    rw [if_pos h1]
    exact decide_eq_true h2
  simp only [contains_inappropriate_content]
  rw [hs]
  simp [hc]

/-- Witness for C8 at the spec's example review text. -/
theorem c8_caps_fraction_disallowed_witness :
    10 < ("SPAM SPAM SPAM BUY NOW" : String).length ∧
    (7 : ℚ) / 10 <
      ((("SPAM SPAM SPAM BUY NOW" : String).toList.filter Char.isUpper).length : ℚ) /
        (("SPAM SPAM SPAM BUY NOW" : String).length : ℚ) ∧
    contains_inappropriate_content (.str "SPAM SPAM SPAM BUY NOW") = true := by
  have hlen : ("SPAM SPAM SPAM BUY NOW" : String).length = 22 := by decide
  have hcnt : (("SPAM SPAM SPAM BUY NOW" : String).toList.filter Char.isUpper).length = 18 := by
    decide
  have h2 : (7 : ℚ) / 10 <
      ((("SPAM SPAM SPAM BUY NOW" : String).toList.filter Char.isUpper).length : ℚ) /
        (("SPAM SPAM SPAM BUY NOW" : String).length : ℚ) := by
    rw [hlen, hcnt]
    norm_num
  exact ⟨by decide, h2, c8_caps_fraction_disallowed _ (by decide) h2⟩

/-! ## C9: obfuscated denylist entries are unreachable -/

/-- C9: the whole-word denylist check never fires on an entry whose
lowercased form contains a non-word character (tokens are maximal `\w+`
runs, so such an entry can equal no token); in particular the
asterisk-obfuscated entries are unreachable, and a text containing only
them passes the filter. -/
theorem c9_starred_entries_unreachable :
    (∀ (s w : String), w ∈ INAPPROPRIATE_WORDS →
      (∃ c ∈ (lowerStr w).toList, isWordChar c = false) →
      (findWords (lowerStr s)).contains (lowerStr w) = false) ∧
    contains_inappropriate_content (.str "f*ck s**t") = false := by
  constructor
  · intro s w _ hbad
    rcases hbad with ⟨c, hc, hcw⟩
    by_contra hcon
    have hmem : lowerStr w ∈ findWords (lowerStr s) :=
      (contains_eq_true_iff _ _).mp (by
        cases he : (findWords (lowerStr s)).contains (lowerStr w) with
        | true => rfl
        | false => exact absurd he hcon)
    have := findWords_chars (lowerStr s) (lowerStr w) hmem c hc
    rw [this] at hcw
    cases hcw
  · decide

/-- Witness for C9: the obfuscated entry `f*ck` is in the denylist, has a
non-word character, and matches no token of a text that spells it out. -/
theorem c9_starred_entries_unreachable_witness :
    ("f*ck" ∈ INAPPROPRIATE_WORDS) ∧
    (∃ c ∈ (lowerStr "f*ck").toList, isWordChar c = false) ∧
    (findWords (lowerStr "this f*ck text")).contains (lowerStr "f*ck") = false :=
  ⟨by decide, by decide,
    c9_starred_entries_unreachable.1 "this f*ck text" "f*ck" (by decide) (by decide)⟩

/-! ## C10: non-string and empty inputs pass the filter -/

/-- C10: `contains_inappropriate_content` returns `false` on `None`, on any
non-string value and on the empty string, and a rating submission with an
empty review text is never rejected by the moderation filter. -/
theorem c10_empty_and_nonstring_pass :
    contains_inappropriate_content .none = false ∧
    (∀ b : Bool, contains_inappropriate_content (.nonString b) = false) ∧
    contains_inappropriate_content (.str "") = false ∧
    (∀ (db : DB) (uid rid : Nat) (rating : ℚ),
      (rate_restaurant db uid rid rating "").1 ≠ .disallowedContent) := by
  refine ⟨rfl, fun b => rfl, rfl, ?_⟩
  intro db uid rid rating
  unfold rate_restaurant
  have hf : contains_inappropriate_content (.str "") = false := rfl
  split
  · intro h; cases h
  · rw [hf]
    simp only [Bool.false_eq_true, if_false]
    split
    · intro h; cases h
    · split
      · intro h; cases h
      · intro h; cases h

/-! ## C7: the rating aggregate -/

/-- Positive-count form of the listing's summary string. -/
lemma ratingMessage_pos (n : Nat) (a : ℚ) (h0 : (n == 0) = false) (h1 : (n != 1) = true) :
    ratingMessage n a = "Rated by " ++ toString n ++ " users" ++ " (Avg: " ++ fmt1 a ++ "/5)" := by
  unfold ratingMessage
  simp only [h0, h1, Bool.false_eq_true, if_false, if_true]
  rw [String.append_assoc ("Rated by " ++ toString n) " user" "s"]
  rfl

/-- Positive-count form of the ratings endpoint's summary string. -/
lemma userRatingMessage_pos (n : Nat) (h0 : (n == 0) = false) (h1 : (n != 1) = true) :
    userRatingMessage n = "Rated by " ++ toString n ++ " users" := by
  unfold userRatingMessage
  simp only [h0, h1, Bool.false_eq_true, if_false, if_true]
  rw [String.append_assoc ("Rated by " ++ toString n) " user" "s"]
  rfl

/-- C7 counterexample: for ratings [5, 3, 4] the `get_restaurant_ratings`
summary string is exactly "Rated by 3 users" — it contains no parenthesis,
so it is not of the claimed form "Rated by N users (Avg: X/5)". -/
theorem c7_ratings_summary_lacks_average :
    (get_restaurant_ratings dbRated 1).map (fun x => x.user_rating_message) =
      some "Rated by 3 users" ∧
    '(' ∉ "Rated by 3 users".toList := by
  decide

/-- C7 amended: the aggregate reports the rating count and the 2-decimal
rounded mean; the `get_restaurants` listing formats the summary
"Rated by N users (Avg: X/5)" (with "user" singular at N = 1 and the
average at one decimal), while `get_restaurant_ratings` formats
"Rated by N users" with no average portion; both say
"Have not been rated by users" at count 0; ratings [5, 3, 4] yield
count 3 and mean 4.0. -/
theorem c7_rating_aggregate_amended :
    ((get_restaurant_ratings dbRated 1).map
        (fun x => (x.total_ratings, x.average_rating, x.user_rating_message)) =
      some (3, some 4, "Rated by 3 users")) ∧
    ((get_restaurants dbRated).map
        (fun x => (x.TotalRatings, x.AverageRating, x.RatingMessage)) =
      [(3, some 4, "Rated by 3 users (Avg: 4.0/5)")]) ∧
    (∀ a : ℚ, ratingMessage 0 a = "Have not been rated by users") ∧
    userRatingMessage 0 = "Have not been rated by users" ∧
    userRatingMessage 1 = "Rated by 1 user" ∧
    (∀ (n : Nat) (a : ℚ), ratingMessage (n + 2) a =
      "Rated by " ++ toString (n + 2) ++ " users" ++ " (Avg: " ++ fmt1 a ++ "/5)") ∧
    (∀ n : Nat, userRatingMessage (n + 2) = "Rated by " ++ toString (n + 2) ++ " users") := by
  have hround : round2 4 = 4 := by norm_num [round2, roundHalfEven]
  refine ⟨?_, ?_, ?_, by decide, by decide, ?_, ?_⟩
  · have h0 : dbRated.restaurants.find? (fun r => r.id == 1 && r.is_active) = some rCafe := by
      decide
    have h1 : (dbRated.ratings.filter (fun rr => rr.restaurant_id == 1)).reverse =
        [row3, row2, row1] := by decide
    have h6 : userRatingMessage 3 = "Rated by 3 users" := by decide
    simp [get_restaurant_ratings, h0, h1, h6, row1, row2, row3]
    norm_num [hround]
  · have h0 : (dbRated.restaurants.filter (fun r => r.is_active)).reverse = [rCafe] := by decide
    have h1 : ratingsFor dbRated rCafe.id = [5, 3, 4] := by decide
    have h2 : avgOf [5, 3, 4] = 4 := by
      simp [avgOf]
      norm_num
    have h4 : fmt1 4 = "4.0" := by
      have hh : roundHalfEven ((4 : ℚ) * 10) = 40 := by norm_num [roundHalfEven]
      simp [fmt1, hh]
      decide
    have h5 : ratingMessage 3 4 = "Rated by 3 users (Avg: 4.0/5)" := by
      simp [ratingMessage, h4]
      decide
    simp [get_restaurants, h0, h1, h2, hround, h5]
  · intro a
    rfl
  · intro n a
    exact ratingMessage_pos (n + 2) a (by simp) (by simp)
  · intro n
    exact userRatingMessage_pos (n + 2) (by simp) (by simp)

/-! ## C1: the database short-circuit is broken by a tuple-index slip -/

/-- C1 failing run: the local store holds an active restaurant matching the
query (its `google_types` column holds the JSON text the save path always
writes), yet the search answers with source `"google_api"`, makes one
provider call and consumes one unit of quota — `float(restaurant[8])`
raises on the `google_types` text at tuple index 8, the handler swallows
the error, and control falls into the provider branch. -/
theorem c1_local_hit_still_calls_provider :
    lookupRestaurants dbBug "sushi" "toronto" ≠ [] ∧
    (search_google_places "sushi" "toronto" Option.none dbBug initUsage
      (.ok bodySushi)).1.sourceTag = some "google_api" ∧
    (search_google_places "sushi" "toronto" Option.none dbBug initUsage
      (.ok bodySushi)).2.2.2 = 1 ∧
    (search_google_places "sushi" "toronto" Option.none dbBug initUsage
      (.ok bodySushi)).2.2.1.total_requests = initUsage.total_requests + 1 := by
  decide

/-! ## C3: failed HTTP calls consume no quota -/

/-- C3 counterexample: with an empty store, a valid query and a transport
failure, the search makes one provider call but the quota total stays 0 —
the increment sits after `raise_for_status`, so a failed HTTP call consumes
nothing, contradicting the claim. -/
theorem c3_failed_call_consumes_no_quota :
    (search_google_places "sushi" "toronto" Option.none initDB initUsage
      .transportError).2.2.2 = 1 ∧
    (search_google_places "sushi" "toronto" Option.none initDB initUsage
      .transportError).2.2.1.total_requests = 0 ∧
    (search_google_places "sushi" "toronto" Option.none initDB initUsage
      .transportError).1 = .err .unreachable := by
  decide

/-! ## C4: query validation sits behind the store lookup -/

/-- C4 counterexample: the query "7" is shorter than 2 visible characters
and has no letters, yet with a matching local record the search returns the
database results (no `InvalidQuery` failure) — validation runs only on the
provider branch.  Quota is still untouched. -/
theorem c4_invalid_query_with_local_match_succeeds :
    (pyStrip "7").length < 2 ∧
    ¬("7".toList.any Char.isAlpha = true) ∧
    (search_google_places "7" "" Option.none dbCafe initUsage
      .transportError).1.sourceTag = some "database" ∧
    (search_google_places "7" "" Option.none dbCafe initUsage
      .transportError).2.2.1 = initUsage := by
  decide

/-! ## C5: upsert idempotence on the natural key -/

/-- C5: a second upsert of a candidate with the same (name, address) pair
returns the same row id, leaves the store unchanged, and reports
`wasInserted = false` (so the saved-count is not incremented). -/
theorem c5_upsert_idempotent (db : DB) (p1 p2 : ProviderPlace)
    (hn : p2.name = p1.name) (ha : p2.formatted_address = p1.formatted_address) :
    (searchUpsert p2 (searchUpsert p1 db).2.1).1 = (searchUpsert p1 db).1 ∧
    (searchUpsert p2 (searchUpsert p1 db).2.1).2.1 = (searchUpsert p1 db).2.1 ∧
    (searchUpsert p2 (searchUpsert p1 db).2.1).2.2 = false := by
  unfold searchUpsert
  rw [hn, ha]
  cases hfind : db.restaurants.find?
      (fun r => r.name == p1.name && r.location == p1.formatted_address) with
  | some r => simp [hfind]
  | none =>
    simp only [hfind]
    rw [List.find?_append, hfind]
    simp

/-- Witness for C5: upserting the same candidate twice into an empty store. -/
theorem c5_upsert_idempotent_witness :
    pSushiGo.name = pSushiGo.name ∧
    pSushiGo.formatted_address = pSushiGo.formatted_address ∧
    ((searchUpsert pSushiGo (searchUpsert pSushiGo initDB).2.1).1 =
        (searchUpsert pSushiGo initDB).1 ∧
      (searchUpsert pSushiGo (searchUpsert pSushiGo initDB).2.1).2.1 =
        (searchUpsert pSushiGo initDB).2.1 ∧
      (searchUpsert pSushiGo (searchUpsert pSushiGo initDB).2.1).2.2 = false) :=
  ⟨rfl, rfl, c5_upsert_idempotent initDB pSushiGo pSushiGo rfl rfl⟩

/-! ## C4 amended: validation on the provider branch -/

/-- C4 amended: when the local-store lookup returns no match and the quota
ceiling has not been reached, a query shorter than 2 visible characters or
with no alphabetic character fails with the invalid-query error, no
provider call is made, and usage is unchanged.  (With a local match the
search answers from the store — see the counterexample — and with the
ceiling reached the quota error takes precedence, since the quota gate runs
before validation.) -/
theorem c4_invalid_query_fails_on_empty_lookup (q l : String) (user : Option Nat)
    (db : DB) (u : ApiUsage) (resp : HttpResult PlacesBody)
    (hdb : lookupRestaurants db q l = [])
    (hq : u.total_requests < MAX_REQUESTS)
    (hbad : (pyStrip q).length < 2 ∨ (q.toList.any Char.isAlpha) = false) :
    ((search_google_places q l user db u resp).1 = .err .queryTooShort ∨
      (search_google_places q l user db u resp).1 = .err .queryNoLetters) ∧
    (search_google_places q l user db u resp).2.2.1 = u ∧
    (search_google_places q l user db u resp).2.2.2 = 0 := by
  unfold search_google_places
  simp only [hdb, List.isEmpty_nil, if_true]
  unfold search_provider_path
  have hcheck : (check_api_quota u).1 = true := by
    unfold check_api_quota
    rw [if_neg (Nat.not_le.mpr hq)]
  rw [hcheck]
  simp only [Bool.not_true, Bool.false_eq_true, if_false]
  by_cases hs : (pyStrip q).length < 2
  · rw [if_pos hs]
    exact ⟨Or.inl rfl, rfl, rfl⟩
  · rw [if_neg hs]
    have hna : (q.toList.any Char.isAlpha) = false := hbad.resolve_left hs
    rw [hna]
    simp

/-- Witness for C4 at the query "7" against an empty store. -/
theorem c4_invalid_query_fails_witness :
    lookupRestaurants initDB "7" "" = [] ∧
    initUsage.total_requests < MAX_REQUESTS ∧
    ((pyStrip "7").length < 2 ∨ ("7".toList.any Char.isAlpha) = false) ∧
    (((search_google_places "7" "" Option.none initDB initUsage .transportError).1 =
          .err .queryTooShort ∨
        (search_google_places "7" "" Option.none initDB initUsage .transportError).1 =
          .err .queryNoLetters) ∧
      (search_google_places "7" "" Option.none initDB initUsage .transportError).2.2.1 =
        initUsage ∧
      (search_google_places "7" "" Option.none initDB initUsage .transportError).2.2.2 = 0) :=
  ⟨by decide, by decide, Or.inl (by decide),
    c4_invalid_query_fails_on_empty_lookup "7" "" Option.none initDB initUsage
      .transportError (by decide) (by decide) (Or.inl (by decide))⟩

/-! ## C6: at most one rating row per (place, user) -/

/-- Under the uniqueness invariant, `find?` on the (place, user) key returns
exactly the member row carrying that key. -/
lemma find_unique_of_pairwise (l : List RatingRow) (hinv : atMostOnePerUser l)
    (rr : RatingRow) (hmem : rr ∈ l) (rid uid : Nat)
    (hmatch : (rr.restaurant_id == rid && rr.user_id == uid) = true) :
    l.find? (fun x => x.restaurant_id == rid && x.user_id == uid) = some rr := by
  induction l with
  | nil => cases hmem
  | cons h t ih =>
    rcases List.pairwise_cons.mp hinv with ⟨hhead, htail⟩
    by_cases hh : (h.restaurant_id == rid && h.user_id == uid) = true
    · rw [List.find?_cons_of_pos (p := fun x : RatingRow => x.restaurant_id == rid && x.user_id == uid) _ hh]
      rcases List.mem_cons.mp hmem with rfl | hmemt
      · rfl
      · exfalso
        apply hhead rr hmemt
        have h1 := Bool.and_eq_true_iff.mp hh
        have h2 := Bool.and_eq_true_iff.mp hmatch
        exact ⟨(beq_iff_eq.mp h1.1).trans (beq_iff_eq.mp h2.1).symm,
          (beq_iff_eq.mp h1.2).trans (beq_iff_eq.mp h2.2).symm⟩
    · rw [List.find?_cons_of_neg (p := fun x : RatingRow => x.restaurant_id == rid && x.user_id == uid) _ hh]
      rcases List.mem_cons.mp hmem with rfl | hmemt
      · exact absurd hmatch hh
      · exact ih htail hmemt

/-- The in-place update of a rating row keeps its keys. -/
lemma updateRow_keys (rid uid : Nat) (rating : ℚ) (review : String) (x : RatingRow) :
    ((if x.restaurant_id == rid && x.user_id == uid then
        { x with rating := rating, review_text := review } else x).restaurant_id =
      x.restaurant_id) ∧
    ((if x.restaurant_id == rid && x.user_id == uid then
        { x with rating := rating, review_text := review } else x).user_id = x.user_id) := by
  split <;> exact ⟨rfl, rfl⟩

/-- C6: `rate_restaurant` preserves the at-most-one-row-per-(place, user)
invariant, and when the submitting user already has a row for the
restaurant (and the submission passes validation, moderation and the
existence check) the endpoint reports action "updated" with that row's id
and the table size is unchanged — no second row is inserted. -/
theorem c6_one_rating_row_per_pair (db : DB) (uid rid : Nat) (rating : ℚ) (review : String)
    (hinv : atMostOnePerUser db.ratings) :
    atMostOnePerUser (rate_restaurant db uid rid rating review).2.ratings ∧
    (∀ rr ∈ db.ratings, rr.restaurant_id = rid → rr.user_id = uid →
      validate_rating rating = true →
      contains_inappropriate_content (.str review) = false →
      (db.restaurants.any (fun r => r.id == rid && r.is_active)) = true →
      (rate_restaurant db uid rid rating review).1 = .ok "updated" rr.id ∧
      (rate_restaurant db uid rid rating review).2.ratings.length = db.ratings.length) := by
  constructor
  · unfold rate_restaurant
    split
    · exact hinv
    · split
      · exact hinv
      · split
        · exact hinv
        · cases hfind : db.ratings.find?
              (fun x => x.restaurant_id == rid && x.user_id == uid) with
          | some rr =>
            simp only [hfind]
            unfold atMostOnePerUser
            rw [List.pairwise_map]
            refine hinv.imp ?_
            intro a b hab hcon
            apply hab
            rw [(updateRow_keys rid uid rating review a).1,
              (updateRow_keys rid uid rating review a).2,
              (updateRow_keys rid uid rating review b).1,
              (updateRow_keys rid uid rating review b).2] at hcon
            exact hcon
          | none =>
            simp only [hfind]
            unfold atMostOnePerUser
            rw [List.pairwise_append]
            refine ⟨hinv, List.pairwise_singleton _ _, ?_⟩
            intro a ha b hb
            rcases List.mem_singleton.mp hb with rfl
            intro hcon
            apply List.find?_eq_none.mp hfind a ha
            simp only [hcon.1, hcon.2]
            simp
  · intro rr hmem hr hu hv hc hex
    have hmatch : (rr.restaurant_id == rid && rr.user_id == uid) = true := by
      simp [hr, hu]
    have hfind := find_unique_of_pairwise db.ratings hinv rr hmem rid uid hmatch
    unfold rate_restaurant
    rw [hv, hc, hex]
    simp only [Bool.not_true, Bool.false_eq_true, if_false, hfind, List.length_map]
    constructor <;> trivial

/-- Witness for C6: user 10 resubmits a rating for restaurant 1. -/
theorem c6_one_rating_row_per_pair_witness :
    atMostOnePerUser dbRated.ratings ∧
    ((rate_restaurant dbRated 10 1 2 "nice").1 = .ok "updated" row1.id ∧
      (rate_restaurant dbRated 10 1 2 "nice").2.ratings.length = dbRated.ratings.length) :=
  ⟨by decide,
    (c6_one_rating_row_per_pair dbRated 10 1 2 "nice" (by decide)).2 row1 (by decide)
      rfl rfl (by decide) (by decide) (by decide)⟩

/-! ## C2 and C3: quota accounting -/

/-- The quota gate passes exactly below the ceiling. -/
lemma check_api_quota_fst (u : ApiUsage) :
    (check_api_quota u).1 = decide (u.total_requests < MAX_REQUESTS) := by
  unfold check_api_quota
  by_cases h : MAX_REQUESTS ≤ u.total_requests
  · rw [if_pos h]
    simp [Nat.not_lt.mpr h]
  · rw [if_neg h]
    simp [Nat.lt_of_not_le h]

/-- On a failed HTTP call the provider path leaves usage untouched and makes
at most one call. -/
lemma search_provider_usage_fail (q : String) (user : Option Nat) (db : DB) (u : ApiUsage)
    (resp : HttpResult PlacesBody)
    (hresp : resp = .transportError ∨ ∃ c, resp = .httpError c) :
    (search_provider_path q user db u resp).2.2.1 = u ∧
    (search_provider_path q user db u resp).2.2.2 ≤ 1 := by
  unfold search_provider_path
  rcases hresp with rfl | ⟨c, rfl⟩ <;> (repeat' split) <;>
    first | exact ⟨rfl, by norm_num⟩ | simp_all

/-- On a 2xx response the provider path adds exactly the number of calls
made (0 or 1) to the total, and any call implies the gate had passed. -/
lemma search_provider_usage_ok (q : String) (user : Option Nat) (db : DB) (u : ApiUsage)
    (b : PlacesBody) :
    (search_provider_path q user db u (.ok b)).2.2.1.total_requests =
      u.total_requests + (search_provider_path q user db u (.ok b)).2.2.2 ∧
    (search_provider_path q user db u (.ok b)).2.2.2 ≤ 1 ∧
    ((search_provider_path q user db u (.ok b)).2.2.2 = 1 →
      u.total_requests < MAX_REQUESTS) := by
  unfold search_provider_path
  by_cases hq : (check_api_quota u).1 = true
  · have hlt : u.total_requests < MAX_REQUESTS := by
      rw [check_api_quota_fst] at hq
      exact of_decide_eq_true hq
    rw [hq]
    simp only [Bool.not_true, Bool.false_eq_true, if_false]
    repeat' split
    all_goals simp [record_api_call, hlt]
  · have hq2 : (check_api_quota u).1 = false := by
      cases hcase : (check_api_quota u).1
      · rfl
      · exact absurd hcase hq
    rw [hq2]
    simp

/-- Failed-HTTP usage fact lifted to the whole search. -/
lemma search_usage_fail (q l : String) (user : Option Nat) (db : DB) (u : ApiUsage)
    (resp : HttpResult PlacesBody)
    (hresp : resp = .transportError ∨ ∃ c, resp = .httpError c) :
    (search_google_places q l user db u resp).2.2.1 = u ∧
    (search_google_places q l user db u resp).2.2.2 ≤ 1 := by
  unfold search_google_places
  dsimp only
  split
  · exact search_provider_usage_fail q user db u resp hresp
  · split
    · exact ⟨rfl, by norm_num⟩
    · exact search_provider_usage_fail q user db u resp hresp

/-- Successful-HTTP usage fact lifted to the whole search. -/
lemma search_usage_ok (q l : String) (user : Option Nat) (db : DB) (u : ApiUsage)
    (b : PlacesBody) :
    (search_google_places q l user db u (.ok b)).2.2.1.total_requests =
      u.total_requests + (search_google_places q l user db u (.ok b)).2.2.2 ∧
    (search_google_places q l user db u (.ok b)).2.2.2 ≤ 1 ∧
    ((search_google_places q l user db u (.ok b)).2.2.2 = 1 →
      u.total_requests < MAX_REQUESTS) := by
  unfold search_google_places
  dsimp only
  split
  · exact search_provider_usage_ok q user db u b
  · split
    · simp
    · exact search_provider_usage_ok q user db u b

/-- `add_google_place` leaves usage untouched or, with the gate passed,
records exactly one call. -/
lemma add_usage (pid : Option String) (db : DB) (u : ApiUsage) (resp : HttpResult DetailsBody) :
    (add_google_place pid db u resp).2.2 = u ∨
    (u.total_requests < MAX_REQUESTS ∧
      (add_google_place pid db u resp).2.2 = record_api_call u) := by
  unfold add_google_place
  by_cases hq : (check_api_quota u).1 = true
  · have hlt : u.total_requests < MAX_REQUESTS := by
      rw [check_api_quota_fst] at hq
      exact of_decide_eq_true hq
    rw [hq]
    simp only [Bool.not_true, Bool.false_eq_true, if_false]
    repeat' split
    all_goals simp [record_api_call, hlt]
  · have hq2 : (check_api_quota u).1 = false := by
      cases hcase : (check_api_quota u).1
      · rfl
      · exact absurd hcase hq
    rw [hq2]
    simp

/-- One batch iteration records at most one call. -/
lemma batch_item_le (db : DB) (u : ApiUsage) (it : String × HttpResult DetailsBody) :
    (batch_item db u it).2.total_requests ≤ u.total_requests + 1 := by
  unfold batch_item
  repeat' split
  all_goals simp [record_api_call]

/-- The batch loop records at most one call per item. -/
lemma batch_fold_le (items : List (String × HttpResult DetailsBody)) :
    ∀ (db : DB) (u : ApiUsage),
      ((items.foldl (fun s it => batch_item s.1 s.2 it) (db, u)).2).total_requests ≤
        u.total_requests + items.length := by
  induction items with
  | nil =>
    intro db u
    simp
  | cons it its ih =>
    intro db u
    simp only [List.foldl_cons, List.length_cons]
    have h1 := batch_item_le db u it
    have h2 := ih (batch_item db u it).1 (batch_item db u it).2
    rw [Prod.mk.eta] at h2
    omega

/-- `batch_add_restaurants` keeps the total under the ceiling. -/
lemma batch_usage_le (items : List (String × HttpResult DetailsBody)) (db : DB) (u : ApiUsage)
    (h : u.total_requests ≤ MAX_REQUESTS) :
    (batch_add_restaurants items db u).2.2.total_requests ≤ MAX_REQUESTS := by
  unfold batch_add_restaurants
  split
  · exact h
  · split
    · exact h
    · split
      · exact h
      · split
        · exact h
        · have h2 := batch_fold_le items db u
          simp only at h2 ⊢
          omega

/-- Every request preserves the quota ceiling invariant. -/
lemma sysStep_total_le {s t : DB × ApiUsage} (hst : SysStep s t)
    (h : s.2.total_requests ≤ MAX_REQUESTS) : t.2.total_requests ≤ MAX_REQUESTS := by
  cases hst with
  | search q l user resp db u =>
    cases resp with
    | transportError =>
      rw [(search_usage_fail q l user db u _ (Or.inl rfl)).1]
      exact h
    | httpError c =>
      rw [(search_usage_fail q l user db u _ (Or.inr ⟨c, rfl⟩)).1]
      exact h
    | ok b =>
      obtain ⟨he, hle, himp⟩ := search_usage_ok q l user db u b
      have h3 : u.total_requests ≤ MAX_REQUESTS := h
      show (search_google_places q l user db u (.ok b)).2.2.1.total_requests ≤ MAX_REQUESTS
      by_cases hc : (search_google_places q l user db u (.ok b)).2.2.2 = 1
      · have := himp hc
        omega
      · have : (search_google_places q l user db u (.ok b)).2.2.2 = 0 := by omega
        omega
  | addPlace pid resp db u =>
    rcases add_usage pid db u resp with heq | ⟨hlt, heq⟩
    · rw [heq]
      exact h
    · rw [heq]
      simp [record_api_call]
      omega
  | batchAdd items db u => exact batch_usage_le items db u h
  | rate uid rid rating review db u => exact h

/-- C2: in every state reachable from first boot by serving requests, the
quota ledger's total call counter stays at or below the configured ceiling
`MAX_REQUESTS`: each provider-calling endpoint checks the ledger before
calling and refuses once the ceiling is reached. -/
theorem c2_total_requests_le_ceiling (s : DB × ApiUsage) (h : Reachable s) :
    s.2.total_requests ≤ MAX_REQUESTS := by
  induction h with
  | refl => decide
  | tail hab hbc ih => exact sysStep_total_le hbc ih

/-- Witness for C2 at the boot state. -/
theorem c2_total_requests_le_ceiling_witness :
    Reachable (initDB, initUsage) ∧ (initDB, initUsage).2.total_requests ≤ MAX_REQUESTS :=
  ⟨Relation.ReflTransGen.refl, c2_total_requests_le_ceiling _ Relation.ReflTransGen.refl⟩

/-- C3 amended: the quota counter is incremented exactly when the provider
HTTP call returns successfully (2xx): on such a response the total grows by
the number of calls made (0 or 1, and any provider-declared error in the
body still counts), while a transport error or non-2xx response leaves the
total unchanged. -/
theorem c3_quota_only_on_http_success (q l : String) (user : Option Nat) (db : DB)
    (u : ApiUsage) (resp : HttpResult PlacesBody) :
    ((search_google_places q l user db u resp).2.2.1.total_requests =
      match resp with
      | .ok _ => u.total_requests + (search_google_places q l user db u resp).2.2.2
      | .transportError => u.total_requests
      | .httpError _ => u.total_requests) ∧
    (search_google_places q l user db u resp).2.2.2 ≤ 1 := by
  cases resp with
  | transportError =>
    obtain ⟨he, hle⟩ := search_usage_fail q l user db u _ (Or.inl rfl)
    exact ⟨by rw [he], hle⟩
  | httpError c =>
    obtain ⟨he, hle⟩ := search_usage_fail q l user db u _ (Or.inr ⟨c, rfl⟩)
    exact ⟨by rw [he], hle⟩
  | ok b =>
    obtain ⟨he, hle, himp⟩ := search_usage_ok q l user db u b
    exact ⟨he, hle⟩

end FlavorQuest
